import Mathlib

/-!
Shallow embedding of two source files of the repository:

* `api/controllers/console/workspace/user_email_resources.py` —
  `EmailDatasetsApi.get` and `EmailAppsApi.get`, read-only paginated
  lookups over an ORM session.  The database is modelled as explicit
  lists of rows; `query(...).filter(...).first()` becomes `List.find?`
  (first row in insertion order), `filter/count/all` become `List.filter`
  and `List.length`, `order_by(created_at.desc())` becomes
  `List.insertionSort` with the ≥-on-`created_at` relation, and
  `offset/limit` become `List.drop`/`List.take`.

* `api/libs/oauth.py` — the OAuth adapters.  Outbound HTTP is external:
  each adapter function takes the provider's (already JSON-parsed)
  response as input, together with the HTTP status where the code
  inspects it.  Python values flowing through the handlers are modelled
  by a small `Json` type, with Python truthiness (`if not x`),
  `dict.get`, `str()` and dict-merge modelled explicitly.
-/

namespace EmailResources

/-- Row of the external `Account` table (fields the handlers read). -/
structure Account where
  id : Nat
  email : String
  deriving Repr, DecidableEq

/-- Row of `TenantAccountJoin`: relates an account to a tenant. -/
structure TenantAccountJoin where
  account_id : Nat
  tenant_id : Nat
  current : Bool
  deriving Repr, DecidableEq

/-- `DatasetPermissionEnum` from `models.dataset`. -/
inductive DatasetPermissionEnum where
  | only_me
  | all_team
  | partial_team
  deriving Repr, DecidableEq

/-- Row of `Dataset` (fields the handlers read). -/
structure Dataset where
  id : Nat
  tenant_id : Nat
  created_by : Nat
  permission : DatasetPermissionEnum
  created_at : Nat
  deriving Repr, DecidableEq

/-- Row of `DatasetPermission`: dataset × account × has_permission. -/
structure DatasetPermission where
  dataset_id : Nat
  account_id : Nat
  has_permission : Bool
  deriving Repr, DecidableEq

/-- Row of `App` (fields the handlers read). -/
structure App where
  id : Nat
  tenant_id : Nat
  created_by : Nat
  is_public : Bool
  created_at : Nat
  deriving Repr, DecidableEq

/-- Row of `InstalledApp`: tenant × app. -/
structure InstalledApp where
  tenant_id : Nat
  app_id : Nat
  deriving Repr, DecidableEq

/-- The database visible to `db.session`: one list per table, in row
(insertion) order, which is the order an unordered `.first()` scans. -/
structure DB where
  accounts : List Account
  tenant_joins : List TenantAccountJoin
  datasets : List Dataset
  dataset_permissions : List DatasetPermission
  apps : List App
  installed_apps : List InstalledApp
  deriving Repr

/-- The `{data, has_more, total, page, limit}` payload both handlers
return (before field marshalling). -/
structure PageResult (α : Type) where
  data : List α
  has_more : Bool
  total : Nat
  page : Int
  limit : Int
  deriving Repr, DecidableEq

/-- The early-return empty page `{data: [], has_more: False, total: 0,
page, limit}`. -/
def emptyPage (page limit : Int) : PageResult α :=
  { data := [], has_more := false, total := 0, page := page, limit := limit }

/-- Tenant resolution shared by both handlers: first
`filter(account_id == ..., current == True).first()`, and only if that
is `None`, `filter(account_id == ...).first()`. -/
def resolveTenantJoin (db : DB) (aid : Nat) : Option TenantAccountJoin :=
  match db.tenant_joins.find? (fun j => j.account_id == aid && j.current) with
  | some j => some j
  | none => db.tenant_joins.find? (fun j => j.account_id == aid)

/-- The dataset visibility filter of `EmailDatasetsApi.get`:
`tenant_id == tenant ∧ (created_by == account ∨ permission == ALL_TEAM ∨
(permission == PARTIAL_TEAM ∧ id ∈ (select dataset_id from
DatasetPermission where account_id == account and has_permission)))`. -/
def datasetVisibleFilter (db : DB) (aid tid : Nat) (d : Dataset) : Bool :=
  d.tenant_id == tid &&
    (d.created_by == aid ||
     d.permission == DatasetPermissionEnum.all_team ||
     (d.permission == DatasetPermissionEnum.partial_team &&
      ((db.dataset_permissions.filter
          (fun dp => dp.account_id == aid && dp.has_permission)).map
          (fun dp => dp.dataset_id)).contains d.id))

/-- `order_by(created_at.desc())`: one total order compatible with the
SQL sort (ties resolved by list position, as insertion sort is stable). -/
def sortByCreatedAtDesc (l : List Dataset) : List Dataset :=
  l.insertionSort (fun a b => b.created_at ≤ a.created_at)

/-- `EmailDatasetsApi.get`, after request parsing: `email`, `page`
(default 1) and `limit` (default 20) are the parsed arguments. -/
def emailDatasetsGet (db : DB) (email : String) (page limit : Int) :
    PageResult Dataset :=
  let offset : Int := (page - 1) * limit
  match db.accounts.find? (fun a => a.email == email) with
  | none => emptyPage page limit
  | some account =>
    match resolveTenantJoin db account.id with
    | none => emptyPage page limit
    | some ta =>
      let matched := db.datasets.filter
        (datasetVisibleFilter db account.id ta.tenant_id)
      let total := matched.length
      let datasets := ((sortByCreatedAtDesc matched).drop offset.toNat).take
        limit.toNat
      { data := datasets
        has_more := decide (offset + limit < (total : Int))
        total := total
        page := page
        limit := limit }

/-- The app visibility filter used when the tenant has installed apps:
`created_by == account ∨ is_public ∨ id ∈ installed_app_ids`. -/
def appVisibleFilterInstalled (aid : Nat) (installed_ids : List Nat)
    (a : App) : Bool :=
  a.created_by == aid || a.is_public || installed_ids.contains a.id

/-- The app visibility filter used when `installed_app_ids` is empty
(falsy): `created_by == account ∨ is_public`. -/
def appVisibleFilterNoInstalled (aid : Nat) (a : App) : Bool :=
  a.created_by == aid || a.is_public

/-- `order_by(created_at.desc())` for apps. -/
def sortAppsByCreatedAtDesc (l : List App) : List App :=
  l.insertionSort (fun a b => b.created_at ≤ a.created_at)

/-- The app query of `EmailAppsApi.get` before count/pagination:
`base_query` filters the tenant, `installed_app_ids` collects the
tenant's `InstalledApp` rows, and the final filter has three
disjuncts when that list is truthy (non-empty) and two otherwise. -/
def appsMatched (db : DB) (aid tid : Nat) : List App :=
  let base := db.apps.filter (fun a => a.tenant_id == tid)
  let installed_app_ids := (db.installed_apps.filter
    (fun ia => ia.tenant_id == tid)).map (fun ia => ia.app_id)
  if installed_app_ids.isEmpty then
    base.filter (appVisibleFilterNoInstalled aid)
  else
    base.filter (appVisibleFilterInstalled aid installed_app_ids)

/-- `EmailAppsApi.get`, after request parsing. -/
def emailAppsGet (db : DB) (email : String) (page limit : Int) :
    PageResult App :=
  let offset : Int := (page - 1) * limit
  match db.accounts.find? (fun a => a.email == email) with
  | none => emptyPage page limit
  | some account =>
    match resolveTenantJoin db account.id with
    | none => emptyPage page limit
    | some ta =>
      let matched := appsMatched db account.id ta.tenant_id
      let total := matched.length
      let apps := ((sortAppsByCreatedAtDesc matched).drop offset.toNat).take
        limit.toNat
      { data := apps
        has_more := decide (offset + limit < (total : Int))
        total := total
        page := page
        limit := limit }

end EmailResources

namespace OAuthLib

/-- Python values flowing through the OAuth handlers (parsed JSON plus
`None` for `dict.get` misses). -/
inductive Json where
  | null
  | bool (b : Bool)
  | num (n : Int)
  | str (s : String)
  | arr (xs : List Json)
  | obj (kvs : List (String × Json))

/-- Python truthiness, as tested by `if not x`: `None`, `False`, `0`,
`""` and empty containers are falsy. -/
def pyTruthy : Json → Bool
  | .null => false
  | .bool b => b
  | .num n => n != 0
  | .str s => !s.isEmpty
  | .arr xs => !xs.isEmpty
  | .obj kvs => !kvs.isEmpty

mutual
/-- Python `repr()` on JSON-derived values (used by `str()` on
containers). -/
def pyRepr : Json → String
  | .null => "None"
  | .bool true => "True"
  | .bool false => "False"
  | .num n => toString n
  | .str s => "\x27" ++ s ++ "\x27"
  | .arr xs => "[" ++ pyReprList xs ++ "]"
  | .obj kvs => "\x7b" ++ pyReprFields kvs ++ "\x7d"

/-- Comma-separated `repr`s of list elements. -/
def pyReprList : List Json → String
  | [] => ""
  | [x] => pyRepr x
  | x :: y :: xs => pyRepr x ++ ", " ++ pyReprList (y :: xs)

/-- Comma-separated `repr`s of dict entries. -/
def pyReprFields : List (String × Json) → String
  | [] => ""
  | [(k, v)] => "\x27" ++ k ++ "\x27: " ++ pyRepr v
  | (k, v) :: e :: kvs =>
      "\x27" ++ k ++ "\x27: " ++ pyRepr v ++ ", " ++ pyReprFields (e :: kvs)
end

/-- Python `str()`, as applied by `str(...)` and f-string interpolation. -/
def pyStr : Json → String
  | .str s => s
  | j => pyRepr j

/-- `d.get(k)` on a dict: the value, or `None` when the key is absent. -/
def pyGet (kvs : List (String × Json)) (k : String) : Json :=
  (List.lookup k kvs).getD .null

/-- `d.get(k, default)` on a dict. -/
def pyGetD (kvs : List (String × Json)) (k : String) (dflt : Json) : Json :=
  (List.lookup k kvs).getD dflt

/-- `\x7b**d, k: v\x7d`: every entry of `d` except `k`, with `k` bound to
`v` (placed last; `List.lookup` sees the same mapping as the Python
dict). -/
def setField (kvs : List (String × Json)) (k : String) (v : Json) :
    List (String × Json) :=
  kvs.filter (fun p => p.1 ≠ k) ++ [(k, v)]

/-- An outbound HTTP response as the handlers see it: the status code
and the already-parsed JSON body (`response.json()`). -/
structure HttpResponse where
  status : Nat
  body : Json

/-- The normalized record the adapters produce.  `id` passes through
`str(...)` in every adapter, so it is a `String`; `name` and `email`
receive raw Python values in some adapters, so they stay `Json`. -/
structure OAuthUserInfo where
  id : String
  name : Json
  email : Json

/-- `GitHubOAuth.get_access_token`, from the parsed token response:
`response_json.get("access_token")`, raise `ValueError` when falsy.
A non-dict response raises on the `.get` attribute access. -/
def githubGetAccessToken : Json → Except String Json
  | .obj kvs =>
      let access_token := pyGet kvs "access_token"
      if pyTruthy access_token then .ok access_token
      else .error "Error in GitHub OAuth"
  | _ => .error "AttributeError"

/-- `GoogleOAuth.get_access_token`, from the parsed token response:
identical extraction. -/
def googleGetAccessToken : Json → Except String Json
  | .obj kvs =>
      let access_token := pyGet kvs "access_token"
      if pyTruthy access_token then .ok access_token
      else .error "Error in Google OAuth"
  | _ => .error "AttributeError"

/-- The token field `AILabOAuth.get_access_token` reads: the wrapped
shape — `"data" in response_json and isinstance(response_json["data"],
dict)` — takes `data["access_token"]`, anything else falls back to the
flat `response_json.get("access_token")`. -/
def ailabTokenField (kvs : List (String × Json)) : Json :=
  match List.lookup "data" kvs with
  | some (.obj dkvs) => pyGet dkvs "access_token"
  | _ => pyGet kvs "access_token"

/-- `AILabOAuth.get_access_token`, from the parsed token response. -/
def ailabGetAccessToken : Json → Except String Json
  | .obj kvs =>
      let access_token := ailabTokenField kvs
      if pyTruthy access_token then .ok access_token
      else .error "Error in AI Lab OAuth"
  | _ => .error "TypeError"

/-- Python `email["primary"] == True` on one email record: `==` against
`True` also matches the number `1` (`True == 1` in Python); indexing a
non-dict, or a dict without the key, raises. -/
def recordIsPrimary : Json → Except String Bool
  | .obj kvs =>
      match List.lookup "primary" kvs with
      | some (.bool b) => .ok b
      | some (.num n) => .ok (n == 1)
      | some _ => .ok false
      | none => .error "KeyError"
  | _ => .error "TypeError"

/-- `next((email for email in email_info if email["primary"] == True),
\x7b\x7d)`: first record flagged primary, or an empty dict. -/
def findPrimaryEmail : List Json → Except String Json
  | [] => .ok (.obj [])
  | r :: rest =>
      match recordIsPrimary r with
      | .ok true => .ok r
      | .ok false => findPrimaryEmail rest
      | .error e => .error e

/-- Python iteration over the parsed `/user/emails` body: lists yield
their elements, dicts their keys, strings their characters; other
values are not iterable. -/
def iterElems : Json → Except String (List Json)
  | .arr xs => .ok xs
  | .obj kvs => .ok (kvs.map (fun p => .str p.1))
  | .str s => .ok (s.toList.map (fun c => .str (String.singleton c)))
  | _ => .error "TypeError: not iterable"

/-- `GitHubOAuth.get_raw_user_info`: `raise_for_status()` on the
`/user` response (4xx/5xx raise), then merge its JSON with the primary
email picked from the `/user/emails` response — whose status is never
inspected. -/
def githubGetRawUserInfo (userResp emailResp : HttpResponse) :
    Except String Json :=
  if 400 ≤ userResp.status then .error "HTTPError" else
  match userResp.body with
  | .obj ukvs =>
      match iterElems emailResp.body with
      | .ok records =>
          match findPrimaryEmail records with
          | .ok (.obj pkvs) =>
              .ok (.obj (setField ukvs "email" (pyGetD pkvs "email" (.str ""))))
          | .ok _ => .error "AttributeError"
          | .error e => .error e
      | .error e => .error e
  | _ => .error "TypeError"

/-- `GitHubOAuth._transform_user_info`: `raw_info.get("email")`, falsy
falls back to the synthesized
`f"\x7braw_info[id]\x7d+\x7braw_info[login]\x7d@users.noreply.github.com"`;
`raw_info["id"]` / `raw_info["name"]` / `raw_info["login"]` raise when
absent. -/
def githubTransformUserInfo : Json → Except String OAuthUserInfo
  | .obj kvs =>
      let email := pyGet kvs "email"
      if pyTruthy email then
        match List.lookup "id" kvs, List.lookup "name" kvs with
        | some idv, some namev => .ok ⟨pyStr idv, namev, email⟩
        | _, _ => .error "KeyError"
      else
        match List.lookup "id" kvs, List.lookup "login" kvs,
            List.lookup "name" kvs with
        | some idv, some loginv, some namev =>
            .ok ⟨pyStr idv, namev,
              .str (pyStr idv ++ "+" ++ pyStr loginv ++
                "@users.noreply.github.com")⟩
        | _, _, _ => .error "KeyError"
  | _ => .error "AttributeError"

/-- `OAuth.get_user_info` specialised to GitHub: raw fetch then
transform. -/
def githubGetUserInfo (userResp emailResp : HttpResponse) :
    Except String OAuthUserInfo :=
  match githubGetRawUserInfo userResp emailResp with
  | .ok raw => githubTransformUserInfo raw
  | .error e => .error e

/-- `GoogleOAuth.get_raw_user_info`: `raise_for_status()` then the
parsed body. -/
def googleGetRawUserInfo (resp : HttpResponse) : Except String Json :=
  if 400 ≤ resp.status then .error "HTTPError" else .ok resp.body

/-- Python `"data" in x` for the values the AI Lab handler can receive:
dict-key test, list membership (`==` against the string), substring
test on strings; other values raise. -/
def pyContainsData : Json → Except String Bool
  | .obj kvs => .ok (kvs.any (fun p => p.1 == "data"))
  | .arr xs => .ok (xs.any (fun j => match j with
      | .str s => s == "data"
      | _ => false))
  | .str s => .ok (1 < (s.splitOn "data").length)
  | _ => .error "TypeError: argument not iterable"

/-- `AILabOAuth.get_raw_user_info`: any status other than 200 raises;
a wrapped body (`"data"` key holding a dict) is unwrapped to its `data`
member, anything else is returned as is (indexing `["data"]` into a
non-dict that contains `"data"` raises). -/
def ailabGetRawUserInfo (resp : HttpResponse) : Except String Json :=
  if resp.status ≠ 200 then .error "Error getting user info" else
  match resp.body with
  | .obj kvs =>
      match List.lookup "data" kvs with
      | some (.obj dkvs) => .ok (.obj dkvs)
      | _ => .ok (.obj kvs)
  | other =>
      match pyContainsData other with
      | .ok true => .error "TypeError: not subscriptable"
      | .ok false => .ok other
      | .error e => .error e

/-- `AILabOAuth._transform_user_info`: built from `.get` with defaults,
`or`, and an f-string only, so it is total on dict inputs. -/
def ailabTransformUserInfo (kvs : List (String × Json)) : OAuthUserInfo :=
  let user_id := pyStr (pyGetD kvs "userId" (.str ""))
  let user_name := pyGetD kvs "username" (.str "")
  let display_name := pyGetD kvs "displayName" (.str "")
  let name := if pyTruthy display_name then display_name else user_name
  let email0 := pyGetD kvs "email" (.str "")
  let email := if pyTruthy email0 then email0
    else Json.str (pyStr user_name ++ "@example.com")
  ⟨user_id, name, email⟩

end OAuthLib

open EmailResources OAuthLib

lemma find_account_none (db : DB) (email : String)
    (h : ∀ a ∈ db.accounts, a.email ≠ email) :
    db.accounts.find? (fun a => a.email == email) = none := by
  rw [List.find?_eq_none]
  intro a ha
  simp [h a ha]

lemma resolveTenantJoin_none (db : DB) (aid : Nat)
    (h : ∀ j ∈ db.tenant_joins, j.account_id ≠ aid) :
    resolveTenantJoin db aid = none := by
  have h1 : db.tenant_joins.find? (fun j => j.account_id == aid && j.current)
      = none := by
    rw [List.find?_eq_none]
    intro j hj
    simp [h j hj]
  have h2 : db.tenant_joins.find? (fun j => j.account_id == aid) = none := by
    rw [List.find?_eq_none]
    intro j hj
    simp [h j hj]
  simp [resolveTenantJoin, h1, h2]

/-- C3: an email with no matching account, or an account with no
`TenantAccountJoin` row at all, makes both endpoints return the
structurally valid empty page echoing the request's page and limit,
rather than raising. -/
theorem emailEndpoints_empty_page_on_missing (db : DB) (email : String)
    (page limit : Int) :
    ((∀ a ∈ db.accounts, a.email ≠ email) →
      emailDatasetsGet db email page limit =
        { data := [], has_more := false, total := 0, page := page,
          limit := limit } ∧
      emailAppsGet db email page limit =
        { data := [], has_more := false, total := 0, page := page,
          limit := limit }) ∧
    (∀ account, db.accounts.find? (fun a => a.email == email) = some account →
      (∀ j ∈ db.tenant_joins, j.account_id ≠ account.id) →
      emailDatasetsGet db email page limit =
        { data := [], has_more := false, total := 0, page := page,
          limit := limit } ∧
      emailAppsGet db email page limit =
        { data := [], has_more := false, total := 0, page := page,
          limit := limit }) := by
  constructor
  · intro h
    have hf := find_account_none db email h
    constructor
    · simp [emailDatasetsGet, hf, emptyPage]
    · simp [emailAppsGet, hf, emptyPage]
  · intro account hacc hjoins
    have hrt := resolveTenantJoin_none db account.id hjoins
    constructor
    · simp [emailDatasetsGet, hacc, hrt, emptyPage]
    · simp [emailAppsGet, hacc, hrt, emptyPage]

/-- Witness for C3 at a concrete empty database. -/
theorem emailEndpoints_empty_page_on_missing_witness :
    emailDatasetsGet ⟨[], [], [], [], [], []⟩ "nobody@example.com" 1 20 =
      { data := [], has_more := false, total := 0, page := 1, limit := 20 } ∧
    emailAppsGet ⟨[], [], [], [], [], []⟩ "nobody@example.com" 1 20 =
      { data := [], has_more := false, total := 0, page := 1, limit := 20 } :=
  (emailEndpoints_empty_page_on_missing ⟨[], [], [], [], [], []⟩
    "nobody@example.com" 1 20).1 (by simp)

/-- C5: tenant resolution first looks for a join row with
`current = true`; only when no such row exists does it fall back to the
first join row of the account. -/
theorem resolveTenantJoin_prefers_current (db : DB) (aid : Nat) :
    ((∃ j ∈ db.tenant_joins, j.account_id = aid ∧ j.current = true) →
      resolveTenantJoin db aid ≠ none ∧
      ∀ j, resolveTenantJoin db aid = some j →
        j.account_id = aid ∧ j.current = true) ∧
    ((∀ j ∈ db.tenant_joins, ¬(j.account_id = aid ∧ j.current = true)) →
      resolveTenantJoin db aid =
        db.tenant_joins.find? (fun j => j.account_id == aid)) := by
  constructor
  · intro h
    obtain ⟨j0, hm, ha, hc⟩ := h
    have hs : (db.tenant_joins.find?
        (fun j => j.account_id == aid && j.current)).isSome := by
      rw [List.find?_isSome]
      exact ⟨j0, hm, by simp [ha, hc]⟩
    obtain ⟨j, hj⟩ := Option.isSome_iff_exists.mp hs
    have hres : resolveTenantJoin db aid = some j := by
      simp [resolveTenantJoin, hj]
    have hp := List.find?_some hj
    simp only [Bool.and_eq_true, beq_iff_eq] at hp
    refine ⟨by simp [hres], ?_⟩
    intro j' hj'
    rw [hres] at hj'
    cases hj'
    exact hp
  · intro h
    have h1 : db.tenant_joins.find?
        (fun j => j.account_id == aid && j.current) = none := by
      rw [List.find?_eq_none]
      intro j hj hcc
      simp only [Bool.and_eq_true, beq_iff_eq] at hcc
      exact h j hj hcc
    simp [resolveTenantJoin, h1]

lemma sortByCreatedAtDesc_length (l : List Dataset) :
    (sortByCreatedAtDesc l).length = l.length :=
  List.length_insertionSort _ l

lemma sortAppsByCreatedAtDesc_length (l : List App) :
    (sortAppsByCreatedAtDesc l).length = l.length :=
  List.length_insertionSort _ l

instance : IsTotal Dataset (fun a b => b.created_at ≤ a.created_at) :=
  ⟨fun a b => le_total b.created_at a.created_at⟩

instance : IsTrans Dataset (fun a b => b.created_at ≤ a.created_at) :=
  ⟨fun _ _ _ h1 h2 => le_trans h2 h1⟩

instance : IsTotal App (fun a b => b.created_at ≤ a.created_at) :=
  ⟨fun a b => le_total b.created_at a.created_at⟩

instance : IsTrans App (fun a b => b.created_at ≤ a.created_at) :=
  ⟨fun _ _ _ h1 h2 => le_trans h2 h1⟩

/-- A tenant with one account that created 45 datasets. -/
def db45 : DB :=
  { accounts := [⟨1, "u@example.com"⟩]
    tenant_joins := [⟨1, 7, true⟩]
    datasets := (List.range 45).map
      (fun i => ⟨i, 7, 1, DatasetPermissionEnum.only_me, i⟩)
    dataset_permissions := []
    apps := []
    installed_apps := [] }

/-- Witness for C5: one non-current and one current join; the current
one is selected. -/
theorem resolveTenantJoin_prefers_current_witness :
    resolveTenantJoin ⟨[], [⟨1, 10, false⟩, ⟨1, 20, true⟩], [], [], [], []⟩ 1
      ≠ none :=
  ((resolveTenantJoin_prefers_current
    ⟨[], [⟨1, 10, false⟩, ⟨1, 20, true⟩], [], [], [], []⟩ 1).1
    ⟨⟨1, 20, true⟩, by simp, rfl, rfl⟩).1

lemma emptyPage_decide_false (page limit : Int) (total : Nat)
    (hp : 1 ≤ page) (hl : 0 ≤ limit) (ht : total = 0) :
    decide ((page - 1) * limit + limit < (total : Int)) = false := by
  subst ht
  rw [decide_eq_false_iff_not]
  intro h
  have h1 : (0 : Int) ≤ (page - 1) * limit :=
    mul_nonneg (by linarith) hl
  push_cast at h
  linarith

lemma emailDatasetsGet_shape (db : DB) (email : String) (page limit : Int)
    (hp : 1 ≤ page) (hl : 0 ≤ limit) :
    ((emailDatasetsGet db email page limit).has_more =
      decide ((page - 1) * limit + limit <
        ((emailDatasetsGet db email page limit).total : Int))) ∧
    (emailDatasetsGet db email page limit).data.length =
      min limit.toNat ((emailDatasetsGet db email page limit).total -
        ((page - 1) * limit).toNat) ∧
    List.Sorted (fun a b => b.created_at ≤ a.created_at)
      (emailDatasetsGet db email page limit).data := by
  rcases hfind : db.accounts.find? (fun a => a.email == email) with _ | account
  · refine ⟨?_, ?_, ?_⟩ <;>
      simp [emailDatasetsGet, hfind, emptyPage,
        (emptyPage_decide_false page limit 0 hp hl rfl)] <;>
      exact add_nonneg (mul_nonneg (by linarith) hl) hl
  · rcases hrt : resolveTenantJoin db account.id with _ | ta
    · refine ⟨?_, ?_, ?_⟩ <;>
        simp [emailDatasetsGet, hfind, hrt, emptyPage,
          (emptyPage_decide_false page limit 0 hp hl rfl)] <;>
        exact add_nonneg (mul_nonneg (by linarith) hl) hl
    · refine ⟨?_, ?_, ?_⟩
      · simp [emailDatasetsGet, hfind, hrt]
      · simp only [emailDatasetsGet, hfind, hrt]
        rw [List.length_take, List.length_drop, sortByCreatedAtDesc_length]
      · simp only [emailDatasetsGet, hfind, hrt]
        exact List.Pairwise.sublist
          ((List.take_sublist _ _).trans (List.drop_sublist _ _))
          (List.sorted_insertionSort _ _)

lemma emailAppsGet_shape (db : DB) (email : String) (page limit : Int)
    (hp : 1 ≤ page) (hl : 0 ≤ limit) :
    ((emailAppsGet db email page limit).has_more =
      decide ((page - 1) * limit + limit <
        ((emailAppsGet db email page limit).total : Int))) ∧
    (emailAppsGet db email page limit).data.length =
      min limit.toNat ((emailAppsGet db email page limit).total -
        ((page - 1) * limit).toNat) ∧
    List.Sorted (fun a b => b.created_at ≤ a.created_at)
      (emailAppsGet db email page limit).data := by
  rcases hfind : db.accounts.find? (fun a => a.email == email) with _ | account
  · refine ⟨?_, ?_, ?_⟩ <;>
      simp [emailAppsGet, hfind, emptyPage,
        (emptyPage_decide_false page limit 0 hp hl rfl)] <;>
      exact add_nonneg (mul_nonneg (by linarith) hl) hl
  · rcases hrt : resolveTenantJoin db account.id with _ | ta
    · refine ⟨?_, ?_, ?_⟩ <;>
        simp [emailAppsGet, hfind, hrt, emptyPage,
          (emptyPage_decide_false page limit 0 hp hl rfl)] <;>
        exact add_nonneg (mul_nonneg (by linarith) hl) hl
    · refine ⟨?_, ?_, ?_⟩
      · simp [emailAppsGet, hfind, hrt]
      · simp only [emailAppsGet, hfind, hrt]
        rw [List.length_take, List.length_drop, sortAppsByCreatedAtDesc_length]
      · simp only [emailAppsGet, hfind, hrt]
        exact List.Pairwise.sublist
          ((List.take_sublist _ _).trans (List.drop_sublist _ _))
          (List.sorted_insertionSort _ _)

/-- C4: both endpoints page with `offset = (page - 1) * limit`,
`has_more = offset + limit < total`, a page ordered by `created_at`
descending of at most `limit` items starting at `offset`; with 45
visible datasets and `limit = 20`, page 1 has `has_more = true` and
page 3 has `has_more = false` with 5 returned items. -/
theorem emailEndpoints_pagination (db : DB) (email : String)
    (page limit : Int) (hp : 1 ≤ page) (hl : 0 ≤ limit) :
    (((emailDatasetsGet db email page limit).has_more =
        decide ((page - 1) * limit + limit <
          ((emailDatasetsGet db email page limit).total : Int))) ∧
      (emailDatasetsGet db email page limit).data.length =
        min limit.toNat ((emailDatasetsGet db email page limit).total -
          ((page - 1) * limit).toNat) ∧
      List.Sorted (fun a b => b.created_at ≤ a.created_at)
        (emailDatasetsGet db email page limit).data) ∧
    (((emailAppsGet db email page limit).has_more =
        decide ((page - 1) * limit + limit <
          ((emailAppsGet db email page limit).total : Int))) ∧
      (emailAppsGet db email page limit).data.length =
        min limit.toNat ((emailAppsGet db email page limit).total -
          ((page - 1) * limit).toNat) ∧
      List.Sorted (fun a b => b.created_at ≤ a.created_at)
        (emailAppsGet db email page limit).data) ∧
    (emailDatasetsGet db45 "u@example.com" 1 20).has_more = true ∧
    (emailDatasetsGet db45 "u@example.com" 3 20).has_more = false ∧
    (emailDatasetsGet db45 "u@example.com" 3 20).total = 45 ∧
    (emailDatasetsGet db45 "u@example.com" 3 20).data.length = 5 := by
  refine ⟨emailDatasetsGet_shape db email page limit hp hl,
    emailAppsGet_shape db email page limit hp hl, ?_, ?_, ?_, ?_⟩ <;> decide

/-- Witness for C4 at a concrete page request. -/
theorem emailEndpoints_pagination_witness :
    (emailDatasetsGet ⟨[], [], [], [], [], []⟩ "e@x" 2 10).has_more =
      decide ((2 - 1) * 10 + 10 <
        (((emailDatasetsGet ⟨[], [], [], [], [], []⟩ "e@x" 2 10).total : Nat) :
          Int)) :=
  (emailEndpoints_pagination ⟨[], [], [], [], [], []⟩ "e@x" 2 10
    (by decide) (by decide)).1.1

/-- The dataset visibility rule in the words of the spec: owner, or
team-wide shared, or member-shared with an explicit positive grant. -/
def specDatasetVisible (db : DB) (aid tid : Nat) (d : Dataset) : Prop :=
  d.tenant_id = tid ∧
    (d.created_by = aid ∨
     d.permission = DatasetPermissionEnum.all_team ∨
     (d.permission = DatasetPermissionEnum.partial_team ∧
      ∃ dp ∈ db.dataset_permissions,
        dp.dataset_id = d.id ∧ dp.account_id = aid ∧ dp.has_permission = true))

instance (db : DB) (aid tid : Nat) :
    DecidablePred (specDatasetVisible db aid tid) := fun d => by
  unfold specDatasetVisible
  infer_instance

lemma datasetVisibleFilter_iff (db : DB) (aid tid : Nat) (d : Dataset) :
    datasetVisibleFilter db aid tid d = true ↔
      specDatasetVisible db aid tid d := by
  simp only [datasetVisibleFilter, specDatasetVisible, Bool.and_eq_true,
    Bool.or_eq_true, beq_iff_eq, List.elem_iff, List.mem_map,
    List.mem_filter]
  constructor
  · rintro ⟨h1, (h2 | h2) | ⟨h2, dp, ⟨hdp, hq1, hq2⟩, hdid⟩⟩
    · exact ⟨h1, Or.inl h2⟩
    · exact ⟨h1, Or.inr (Or.inl h2)⟩
    · exact ⟨h1, Or.inr (Or.inr ⟨h2, dp, hdp, hdid, hq1, hq2⟩)⟩
  · rintro ⟨h1, h2 | h2 | ⟨h2, dp, hdp, hdid, hq1, hq2⟩⟩
    · exact ⟨h1, Or.inl (Or.inl h2)⟩
    · exact ⟨h1, Or.inl (Or.inr h2)⟩
    · exact ⟨h1, Or.inr ⟨h2, dp, ⟨hdp, hq1, hq2⟩, hdid⟩⟩

/-- A tenant where the only dataset is `PARTIAL_TEAM` and the only
grant row for the querying account has `has_permission = false`. -/
def dbPartialDenied : DB :=
  { accounts := [⟨1, "u@example.com"⟩]
    tenant_joins := [⟨1, 7, true⟩]
    datasets := [⟨100, 7, 2, DatasetPermissionEnum.partial_team, 0⟩]
    dataset_permissions := [⟨100, 1, false⟩]
    apps := []
    installed_apps := [] }

/-- C1: with the account and tenant resolved, a dataset is in the
query result (and counted in `total`) exactly when it belongs to the
tenant and is owned by the account, or is `ALL_TEAM`, or is
`PARTIAL_TEAM` with a positive `DatasetPermission` grant; a
`PARTIAL_TEAM` dataset whose only grant row is negative is excluded. -/
theorem emailDatasetsGet_visibility (db : DB) (email : String)
    (page limit L : Int) (account : Account) (ta : TenantAccountJoin)
    (hacc : db.accounts.find? (fun a => a.email == email) = some account)
    (hta : resolveTenantJoin db account.id = some ta)
    (hL : ((emailDatasetsGet db email 1 L).total : Int) ≤ L) :
    (∀ d, d ∈ (emailDatasetsGet db email 1 L).data ↔
      d ∈ db.datasets ∧ specDatasetVisible db account.id ta.tenant_id d) ∧
    (emailDatasetsGet db email page limit).total =
      (db.datasets.filter
        (fun d => decide (specDatasetVisible db account.id ta.tenant_id d))
        ).length ∧
    (emailDatasetsGet dbPartialDenied "u@example.com" 1 20).total = 0 ∧
    (emailDatasetsGet dbPartialDenied "u@example.com" 1 20).data = [] := by
  have hfilter : db.datasets.filter
      (datasetVisibleFilter db account.id ta.tenant_id) =
      db.datasets.filter
        (fun d => decide (specDatasetVisible db account.id ta.tenant_id d)) := by
    apply List.filter_congr
    intro d _
    rcases Bool.eq_false_or_eq_true
        (datasetVisibleFilter db account.id ta.tenant_id d) with hb | hb
    · rw [hb, decide_eq_true
        ((datasetVisibleFilter_iff db account.id ta.tenant_id d).mp hb)]
    · have hns : ¬ specDatasetVisible db account.id ta.tenant_id d := by
        intro hs
        have h2 := (datasetVisibleFilter_iff db account.id ta.tenant_id d).mpr hs
        rw [hb] at h2
        exact Bool.false_ne_true h2
      rw [hb, decide_eq_false hns]
  simp only [emailDatasetsGet, hacc, hta] at hL ⊢
  refine ⟨?_, by rw [hfilter], by decide, by decide⟩
  intro d
  have hlen : (sortByCreatedAtDesc (db.datasets.filter
      (datasetVisibleFilter db account.id ta.tenant_id))).length ≤ L.toNat := by
    rw [sortByCreatedAtDesc_length]
    omega
  simp only [show ((1:Int) - 1) * L = 0 by ring, Int.toNat_zero,
    List.drop_zero]
  rw [List.take_of_length_le hlen]
  rw [sortByCreatedAtDesc, List.mem_insertionSort]
  rw [List.mem_filter]
  exact and_congr_right
    (fun _ => datasetVisibleFilter_iff db account.id ta.tenant_id d)

lemma bool_eq_decide {b : Bool} {p : Prop} [Decidable p]
    (h : b = true ↔ p) : b = decide p := by
  rcases Bool.eq_false_or_eq_true b with hb | hb
  · rw [hb, decide_eq_true (h.mp hb)]
  · rw [hb, decide_eq_false (fun hp => Bool.false_ne_true (hb ▸ h.mpr hp))]

/-- The app visibility rule in the words of the spec: owner, or
public, or installed for the tenant. -/
def specAppVisible (db : DB) (aid tid : Nat) (a : App) : Prop :=
  a.tenant_id = tid ∧
    (a.created_by = aid ∨ a.is_public = true ∨
      ∃ ia ∈ db.installed_apps, ia.tenant_id = tid ∧ ia.app_id = a.id)

instance (db : DB) (aid tid : Nat) :
    DecidablePred (specAppVisible db aid tid) := fun a => by
  unfold specAppVisible
  infer_instance

lemma appFull_iff (db : DB) (aid tid : Nat) (a : App) :
    (appVisibleFilterInstalled aid ((db.installed_apps.filter
        (fun ia => ia.tenant_id == tid)).map (fun ia => ia.app_id)) a &&
      (a.tenant_id == tid)) = true ↔ specAppVisible db aid tid a := by
  simp only [appVisibleFilterInstalled, specAppVisible, Bool.and_eq_true,
    Bool.or_eq_true, beq_iff_eq, List.elem_iff, List.mem_map,
    List.mem_filter]
  constructor
  · rintro ⟨(hc | hp) | ⟨ia, ⟨him, hten⟩, hid⟩, ht⟩
    · exact ⟨ht, Or.inl hc⟩
    · exact ⟨ht, Or.inr (Or.inl hp)⟩
    · exact ⟨ht, Or.inr (Or.inr ⟨ia, him, hten, hid⟩)⟩
  · rintro ⟨ht, hc | hp | ⟨ia, him, hten, hid⟩⟩
    · exact ⟨Or.inl (Or.inl hc), ht⟩
    · exact ⟨Or.inl (Or.inr hp), ht⟩
    · exact ⟨Or.inr ⟨ia, ⟨him, hten⟩, hid⟩, ht⟩

lemma appsMatched_eq (db : DB) (aid tid : Nat) :
    appsMatched db aid tid =
      db.apps.filter (fun a => decide (specAppVisible db aid tid a)) := by
  simp only [appsMatched]
  by_cases hi : ((db.installed_apps.filter
      (fun ia => ia.tenant_id == tid)).map (fun ia => ia.app_id)).isEmpty
  · rw [if_pos hi, List.filter_filter]
    apply List.filter_congr
    intro a _
    apply bool_eq_decide
    have hfull := appFull_iff db aid tid a
    rw [List.isEmpty_iff.mp hi] at hfull
    simpa [appVisibleFilterInstalled, appVisibleFilterNoInstalled]
      using hfull
  · rw [if_neg hi, List.filter_filter]
    apply List.filter_congr
    intro a _
    exact bool_eq_decide (appFull_iff db aid tid a)

/-- A tenant where the only app was not created by the account and is
not public, but is installed for the tenant. -/
def dbInstalledOnly : DB :=
  { accounts := [⟨1, "u@example.com"⟩]
    tenant_joins := [⟨1, 7, true⟩]
    datasets := []
    dataset_permissions := []
    apps := [⟨200, 7, 2, false, 3⟩]
    installed_apps := [⟨7, 200⟩] }

/-- C2: with the account and tenant resolved, an app is in the query
result (and counted in `total`) exactly when it belongs to the tenant
and was created by the account, or is public, or has an `InstalledApp`
row for the tenant; an installed app that is neither owned nor public
appears in the results. -/
theorem emailAppsGet_visibility (db : DB) (email : String)
    (page limit L : Int) (account : Account) (ta : TenantAccountJoin)
    (hacc : db.accounts.find? (fun a => a.email == email) = some account)
    (hta : resolveTenantJoin db account.id = some ta)
    (hL : ((emailAppsGet db email 1 L).total : Int) ≤ L) :
    (∀ a, a ∈ (emailAppsGet db email 1 L).data ↔
      a ∈ db.apps ∧ specAppVisible db account.id ta.tenant_id a) ∧
    (emailAppsGet db email page limit).total =
      (db.apps.filter
        (fun a => decide (specAppVisible db account.id ta.tenant_id a))
        ).length ∧
    (⟨200, 7, 2, false, 3⟩ : App) ∈
      (emailAppsGet dbInstalledOnly "u@example.com" 1 20).data ∧
    (emailAppsGet dbInstalledOnly "u@example.com" 1 20).total = 1 := by
  simp only [emailAppsGet, hacc, hta] at hL ⊢
  refine ⟨?_, by rw [appsMatched_eq], by decide, by decide⟩
  intro a
  have hlen : (sortAppsByCreatedAtDesc
      (appsMatched db account.id ta.tenant_id)).length ≤ L.toNat := by
    rw [sortAppsByCreatedAtDesc_length]
    omega
  simp only [show ((1:Int) - 1) * L = 0 by ring, Int.toNat_zero,
    List.drop_zero]
  rw [List.take_of_length_le hlen]
  rw [sortAppsByCreatedAtDesc, List.mem_insertionSort]
  rw [appsMatched_eq, List.mem_filter]
  simp only [decide_eq_true_eq]

/-- Witness for C2: the installed-only app appears in the results. -/
theorem emailAppsGet_visibility_witness :
    (⟨200, 7, 2, false, 3⟩ : App) ∈
      (emailAppsGet dbInstalledOnly "u@example.com" 1 20).data :=
  ((emailAppsGet_visibility dbInstalledOnly "u@example.com" 1 20 20
    ⟨1, "u@example.com"⟩ ⟨1, 7, true⟩ rfl rfl (by decide)).1 _).mpr
    (by decide)

/-- A tenant where the only dataset is `PARTIAL_TEAM` with a positive
grant for the querying account. -/
def dbPartialGranted : DB :=
  { accounts := [⟨1, "u@example.com"⟩]
    tenant_joins := [⟨1, 7, true⟩]
    datasets := [⟨100, 7, 2, DatasetPermissionEnum.partial_team, 5⟩]
    dataset_permissions := [⟨100, 1, true⟩]
    apps := []
    installed_apps := [] }

/-- Witness for C1: the granted `PARTIAL_TEAM` dataset appears in the
results. -/
theorem emailDatasetsGet_visibility_witness :
    (⟨100, 7, 2, DatasetPermissionEnum.partial_team, 5⟩ : Dataset) ∈
      (emailDatasetsGet dbPartialGranted "u@example.com" 1 20).data :=
  ((emailDatasetsGet_visibility dbPartialGranted "u@example.com" 1 20 20
    ⟨1, "u@example.com"⟩ ⟨1, 7, true⟩ rfl rfl (by decide)).1 _).mpr
    (by decide)

lemma tokenGate_error (tok : Json) (msg : String)
    (h : tok = Json.null ∨ tok = Json.str "") :
    (if pyTruthy tok then (Except.ok tok : Except String Json)
      else .error msg) = .error msg := by
  rcases h with rfl | rfl <;> rfl

lemma tokenGate_ok_props (tok t : Json) (msg : String)
    (h : (if pyTruthy tok then (Except.ok tok : Except String Json)
      else .error msg) = .ok t) : t ≠ Json.null ∧ t ≠ Json.str "" := by
  by_cases hp : pyTruthy tok = true
  · rw [if_pos hp] at h
    injection h with h
    subst h
    constructor <;> rintro rfl <;> exact absurd hp (by decide)
  · rw [if_neg hp] at h
    exact Except.noConfusion h

lemma tokenGate_ok (s : String) (msg : String) (hs : s ≠ "") :
    (if pyTruthy (Json.str s) then
      (Except.ok (Json.str s) : Except String Json)
      else .error msg) = .ok (.str s) := by
  rw [if_pos]
  simp only [pyTruthy, Bool.not_eq_true']
  rw [← Bool.not_eq_true, String.isEmpty_iff]
  exact hs

/-- C6: every provider raises when the token response carries no
access token (missing key, `null`, or empty string), never returns a
null or empty token, and returns the token when it is a non-empty
string. -/
theorem getAccessToken_requires_token (kvs : List (String × Json)) :
    ((List.lookup "access_token" kvs = none ∨
      List.lookup "access_token" kvs = some Json.null ∨
      List.lookup "access_token" kvs = some (Json.str "")) →
      githubGetAccessToken (Json.obj kvs) = .error "Error in GitHub OAuth" ∧
      googleGetAccessToken (Json.obj kvs) = .error "Error in Google OAuth") ∧
    (∀ t, githubGetAccessToken (Json.obj kvs) = .ok t →
      t ≠ Json.null ∧ t ≠ Json.str "") ∧
    (∀ t, googleGetAccessToken (Json.obj kvs) = .ok t →
      t ≠ Json.null ∧ t ≠ Json.str "") ∧
    (∀ s, s ≠ "" → List.lookup "access_token" kvs = some (Json.str s) →
      githubGetAccessToken (Json.obj kvs) = .ok (.str s) ∧
      googleGetAccessToken (Json.obj kvs) = .ok (.str s)) ∧
    ((ailabTokenField kvs = Json.null ∨ ailabTokenField kvs = Json.str "") →
      ailabGetAccessToken (Json.obj kvs) = .error "Error in AI Lab OAuth") ∧
    (∀ t, ailabGetAccessToken (Json.obj kvs) = .ok t →
      t ≠ Json.null ∧ t ≠ Json.str "") ∧
    (∀ s, s ≠ "" → ailabTokenField kvs = Json.str s →
      ailabGetAccessToken (Json.obj kvs) = .ok (.str s)) := by
  refine ⟨?_, ?_, ?_, ?_, ?_, ?_, ?_⟩
  · intro h
    have htok : pyGet kvs "access_token" = Json.null ∨
        pyGet kvs "access_token" = Json.str "" := by
      rcases h with h | h | h <;> simp [pyGet, h]
    exact ⟨tokenGate_error _ _ htok, tokenGate_error _ _ htok⟩
  · exact fun t ht => tokenGate_ok_props _ t _ ht
  · exact fun t ht => tokenGate_ok_props _ t _ ht
  · intro s hs hl
    have htok : pyGet kvs "access_token" = Json.str s := by
      simp [pyGet, hl]
    constructor
    · show (if pyTruthy (pyGet kvs "access_token") then
        (Except.ok (pyGet kvs "access_token") : Except String Json)
        else .error "Error in GitHub OAuth") = .ok (.str s)
      rw [htok]
      exact tokenGate_ok s _ hs
    · show (if pyTruthy (pyGet kvs "access_token") then
        (Except.ok (pyGet kvs "access_token") : Except String Json)
        else .error "Error in Google OAuth") = .ok (.str s)
      rw [htok]
      exact tokenGate_ok s _ hs
  · intro h
    exact tokenGate_error _ _ h
  · exact fun t ht => tokenGate_ok_props _ t _ ht
  · intro s hs hl
    show (if pyTruthy (ailabTokenField kvs) then
      (Except.ok (ailabTokenField kvs) : Except String Json)
      else .error "Error in AI Lab OAuth") = .ok (.str s)
    rw [hl]
    exact tokenGate_ok s _ hs

/-- Witness for C6: a concrete non-empty token is returned as is. -/
theorem getAccessToken_requires_token_witness :
    githubGetAccessToken (Json.obj [("access_token", Json.str "tok")]) =
      .ok (.str "tok") :=
  (((getAccessToken_requires_token [("access_token", Json.str "tok")]
    ).2.2.2.1) "tok" (by decide) rfl).1

/-- C7: AILab token extraction yields the same token from the wrapped
`\x7bcode, msg, data: \x7baccess_token\x7d\x7d` response as from the
flat `\x7baccess_token\x7d` one, and the wrapped shape wins when both
are present. -/
theorem ailab_wrapped_flat_token (t : String) (ht : t ≠ "") :
    ailabGetAccessToken (Json.obj [("code", Json.num 200),
      ("msg", Json.str "success"),
      ("data", Json.obj [("access_token", Json.str t)])]) = .ok (.str t) ∧
    ailabGetAccessToken (Json.obj [("access_token", Json.str t)]) =
      .ok (.str t) ∧
    (∀ u : Json, ailabGetAccessToken (Json.obj [("access_token", u),
      ("data", Json.obj [("access_token", Json.str t)])]) = .ok (.str t)) := by
  have hgate := tokenGate_ok t "Error in AI Lab OAuth" ht
  refine ⟨?_, ?_, fun u => ?_⟩
  · show (if pyTruthy (ailabTokenField _) then
      (Except.ok (ailabTokenField _) : Except String Json)
      else .error "Error in AI Lab OAuth") = .ok (.str t)
    rw [show ailabTokenField [("code", Json.num 200),
      ("msg", Json.str "success"),
      ("data", Json.obj [("access_token", Json.str t)])] = Json.str t
      from rfl]
    exact hgate
  · show (if pyTruthy (ailabTokenField _) then
      (Except.ok (ailabTokenField _) : Except String Json)
      else .error "Error in AI Lab OAuth") = .ok (.str t)
    rw [show ailabTokenField [("access_token", Json.str t)] = Json.str t
      from rfl]
    exact hgate
  · show (if pyTruthy (ailabTokenField _) then
      (Except.ok (ailabTokenField _) : Except String Json)
      else .error "Error in AI Lab OAuth") = .ok (.str t)
    rw [show ailabTokenField [("access_token", u),
      ("data", Json.obj [("access_token", Json.str t)])] = Json.str t
      from rfl]
    exact hgate

/-- Witness for C7 at a concrete token. -/
theorem ailab_wrapped_flat_token_witness :
    ailabGetAccessToken (Json.obj [("code", Json.num 200),
      ("msg", Json.str "success"),
      ("data", Json.obj [("access_token", Json.str "tok")])]) =
      .ok (.str "tok") :=
  (ailab_wrapped_flat_token "tok" (by decide)).1

/-- C10: `AILabOAuth._transform_user_info` is total on dict inputs
(it is built from defaulted `.get`, `or` and an f-string only): a
missing `userId` yields `id = ""`, missing `displayName` and
`username` yield `name = ""`, and absent-or-empty `email` and
`username` yield the degenerate address `"@example.com"`. -/
theorem ailabTransformUserInfo_defaults (kvs : List (String × Json)) :
    (List.lookup "userId" kvs = none →
      (ailabTransformUserInfo kvs).id = "") ∧
    (List.lookup "displayName" kvs = none →
      List.lookup "username" kvs = none →
      (ailabTransformUserInfo kvs).name = Json.str "") ∧
    ((List.lookup "email" kvs = none ∨
        List.lookup "email" kvs = some (Json.str "")) →
      (List.lookup "username" kvs = none ∨
        List.lookup "username" kvs = some (Json.str "")) →
      (ailabTransformUserInfo kvs).email = Json.str "@example.com") := by
  refine ⟨?_, ?_, ?_⟩
  · intro h
    simp [ailabTransformUserInfo, pyGetD, h, pyStr]
  · intro h1 h2
    simp [ailabTransformUserInfo, pyGetD, h1, h2, pyTruthy]
  · intro h1 h2
    have he : pyGetD kvs "email" (Json.str "") = Json.str "" := by
      rcases h1 with h | h <;> simp [pyGetD, h]
    have hu : pyGetD kvs "username" (Json.str "") = Json.str "" := by
      rcases h2 with h | h <;> simp [pyGetD, h]
    simp [ailabTransformUserInfo, he, hu, pyTruthy, pyStr]
    decide

/-- Witness for C10 at the empty dict. -/
theorem ailabTransformUserInfo_defaults_witness :
    (ailabTransformUserInfo []).id = "" ∧
    (ailabTransformUserInfo []).name = Json.str "" ∧
    (ailabTransformUserInfo []).email = Json.str "@example.com" :=
  ⟨(ailabTransformUserInfo_defaults []).1 rfl,
   (ailabTransformUserInfo_defaults []).2.1 rfl rfl,
   (ailabTransformUserInfo_defaults []).2.2 (Or.inl rfl) (Or.inl rfl)⟩

lemma lookup_cons_self (k : String) (v : Json)
    (rest : List (String × Json)) :
    List.lookup k ((k, v) :: rest) = some v := by
  simp [List.lookup]

lemma lookup_cons_ne (k : String) (e : String × Json)
    (rest : List (String × Json)) (h : e.1 ≠ k) :
    List.lookup k (e :: rest) = List.lookup k rest := by
  rcases e with ⟨k1, v1⟩
  have hb : (k == k1) = false := beq_eq_false_iff_ne.mpr (Ne.symm h)
  simp [List.lookup, hb]

lemma lookup_setField_self (kvs : List (String × Json)) (k : String)
    (v : Json) : List.lookup k (setField kvs k v) = some v := by
  unfold setField
  induction kvs with
  | nil => simp [lookup_cons_self]
  | cons e rest ih =>
    by_cases he : e.1 = k
    · simp only [List.filter_cons]
      rw [if_neg (by simp [he])]
      exact ih
    · simp only [List.filter_cons]
      rw [if_pos (by simp [he]), List.cons_append, lookup_cons_ne _ _ _ he]
      exact ih

lemma lookup_setField_ne (kvs : List (String × Json)) (k' k : String)
    (v : Json) (h : k' ≠ k) :
    List.lookup k' (setField kvs k v) = List.lookup k' kvs := by
  unfold setField
  induction kvs with
  | nil =>
    simp only [List.filter_nil, List.nil_append]
    rw [lookup_cons_ne _ _ _ (Ne.symm h)]
  | cons e rest ih =>
    by_cases he : e.1 = k
    · have h1 : e.1 ≠ k' := by
        rw [he]
        exact Ne.symm h
      simp only [List.filter_cons]
      rw [if_neg (by simp [he]), lookup_cons_ne _ _ _ h1]
      exact ih
    · by_cases hk : e.1 = k'
      · rcases e with ⟨k1, v1⟩
        simp only at hk
        subst hk
        simp only [List.filter_cons]
        rw [if_pos (by simp [he]), List.cons_append, lookup_cons_self,
          lookup_cons_self]
      · simp only [List.filter_cons]
        rw [if_pos (by simp [he]), List.cons_append,
          lookup_cons_ne _ _ _ hk, lookup_cons_ne _ _ _ hk]
        exact ih

lemma findPrimaryEmail_none (records : List Json)
    (h : ∀ r ∈ records, recordIsPrimary r = .ok false) :
    findPrimaryEmail records = .ok (.obj []) := by
  induction records with
  | nil => rfl
  | cons r rest ih =>
    have hr := h r (List.mem_cons_self _ _)
    simp only [findPrimaryEmail, hr]
    exact ih fun x hx => h x (List.mem_cons_of_mem _ hx)

lemma findPrimaryEmail_found (rs rest : List Json) (p : Json)
    (hrs : ∀ r ∈ rs, recordIsPrimary r = .ok false)
    (hp : recordIsPrimary p = .ok true) :
    findPrimaryEmail (rs ++ p :: rest) = .ok p := by
  induction rs with
  | nil =>
    simp only [List.nil_append, findPrimaryEmail, hp]
  | cons r rs ih =>
    have hr := hrs r (List.mem_cons_self _ _)
    simp only [List.cons_append, findPrimaryEmail, hr]
    exact ih fun x hx => hrs x (List.mem_cons_of_mem _ hx)

/-- C8: for a GitHub profile with `id`, `login` and `name` present,
when the email records hold no entry flagged primary the normalized
email is the synthesized
`\x7bid\x7d+\x7blogin\x7d@users.noreply.github.com`; when a primary
record with a non-empty email exists (after any run of non-primary
records), that email is used directly. -/
theorem githubGetUserInfo_email (userResp emailResp : HttpResponse)
    (ukvs : List (String × Json)) (records : List Json)
    (idv loginv namev : Json)
    (hstat : userResp.status < 400)
    (hub : userResp.body = .obj ukvs)
    (heb : emailResp.body = .arr records)
    (hid : List.lookup "id" ukvs = some idv)
    (hlogin : List.lookup "login" ukvs = some loginv)
    (hname : List.lookup "name" ukvs = some namev) :
    ((∀ r ∈ records, recordIsPrimary r = .ok false) →
      (githubGetUserInfo userResp emailResp).map (fun i => i.email) =
        .ok (.str (pyStr idv ++ "+" ++ pyStr loginv ++
          "@users.noreply.github.com"))) ∧
    (∀ (rs rest : List Json) (pkvs : List (String × Json)) (s : String),
      records = rs ++ Json.obj pkvs :: rest →
      (∀ r ∈ rs, recordIsPrimary r = .ok false) →
      recordIsPrimary (.obj pkvs) = .ok true →
      List.lookup "email" pkvs = some (.str s) → s ≠ "" →
      (githubGetUserInfo userResp emailResp).map (fun i => i.email) =
        .ok (.str s)) := by
  constructor
  · intro hnone
    have hfp := findPrimaryEmail_none records hnone
    have hraw : githubGetRawUserInfo userResp emailResp =
        .ok (.obj (setField ukvs "email" (Json.str ""))) := by
      unfold githubGetRawUserInfo
      rw [if_neg (by omega), hub, heb]
      simp only [iterElems, hfp]
      rfl
    have h1 : List.lookup "email" (setField ukvs "email" (Json.str "")) =
        some (Json.str "") := lookup_setField_self ukvs "email" _
    have h2 : List.lookup "id" (setField ukvs "email" (Json.str "")) =
        some idv := by
      rw [lookup_setField_ne _ _ _ _ (by decide)]
      exact hid
    have h3 : List.lookup "login" (setField ukvs "email" (Json.str "")) =
        some loginv := by
      rw [lookup_setField_ne _ _ _ _ (by decide)]
      exact hlogin
    have h4 : List.lookup "name" (setField ukvs "email" (Json.str "")) =
        some namev := by
      rw [lookup_setField_ne _ _ _ _ (by decide)]
      exact hname
    simp only [githubGetUserInfo, hraw, githubTransformUserInfo, pyGet,
      h1, h2, h3, h4, Option.getD_some]
    rw [if_neg (by decide)]
    rfl
  · intro rs rest pkvs s hrec hrs hp hlk hs
    have hfp : findPrimaryEmail records = .ok (.obj pkvs) := by
      rw [hrec]
      exact findPrimaryEmail_found rs rest _ hrs hp
    have hraw : githubGetRawUserInfo userResp emailResp =
        .ok (.obj (setField ukvs "email" (Json.str s))) := by
      unfold githubGetRawUserInfo
      rw [if_neg (by omega), hub, heb]
      simp only [iterElems, hfp]
      simp [pyGetD, hlk]
    have h1 : List.lookup "email" (setField ukvs "email" (Json.str s)) =
        some (Json.str s) := lookup_setField_self ukvs "email" _
    have h2 : List.lookup "id" (setField ukvs "email" (Json.str s)) =
        some idv := by
      rw [lookup_setField_ne _ _ _ _ (by decide)]
      exact hid
    have h4 : List.lookup "name" (setField ukvs "email" (Json.str s)) =
        some namev := by
      rw [lookup_setField_ne _ _ _ _ (by decide)]
      exact hname
    simp only [githubGetUserInfo, hraw, githubTransformUserInfo, pyGet,
      h1, h2, h4, Option.getD_some]
    rw [if_pos (by
      simp only [pyTruthy, Bool.not_eq_true']
      rw [← Bool.not_eq_true, String.isEmpty_iff]
      exact hs)]
    rfl

/-- Witness for C8: a profile with no primary email synthesizes the
noreply address. -/
theorem githubGetUserInfo_email_witness :
    (githubGetUserInfo
      ⟨200, .obj [("id", Json.num 42), ("login", Json.str "octo"),
        ("name", Json.str "Octo")]⟩
      ⟨200, .arr []⟩).map (fun i => i.email) =
      .ok (.str "42+octo@users.noreply.github.com") :=
  (githubGetUserInfo_email
    ⟨200, .obj [("id", Json.num 42), ("login", Json.str "octo"),
      ("name", Json.str "Octo")]⟩
    ⟨200, .arr []⟩
    [("id", Json.num 42), ("login", Json.str "octo"),
      ("name", Json.str "Octo")]
    [] (Json.num 42) (Json.str "octo") (Json.str "Octo")
    (by decide) rfl rfl rfl rfl rfl).1
    (fun r hr => absurd hr (List.not_mem_nil r))

/-- C9 counterexample: `GitHubOAuth.get_raw_user_info` never inspects
the `/user/emails` response status, so a failing (500) second response
does not make it raise — refuting "raises whenever an HTTP response it
makes has a failure status". -/
theorem getRawUserInfo_status_counterexample :
    ¬ (∀ uResp eResp : HttpResponse, 400 ≤ eResp.status →
        ∃ msg, githubGetRawUserInfo uResp eResp = .error msg) := by
  intro h
  obtain ⟨msg, hmsg⟩ := h
    ⟨200, .obj [("id", Json.num 1), ("login", Json.str "u"),
      ("name", Json.str "U")]⟩
    ⟨500, .arr []⟩ (by decide)
  rw [show githubGetRawUserInfo
      ⟨200, .obj [("id", Json.num 1), ("login", Json.str "u"),
        ("name", Json.str "U")]⟩ ⟨500, .arr []⟩ =
      .ok (.obj [("id", Json.num 1), ("login", Json.str "u"),
        ("name", Json.str "U"), ("email", Json.str "")]) from rfl] at hmsg
  exact Except.noConfusion hmsg

/-- C9 (amended): each provider raises on the statuses it actually
checks — GitHub on a 4xx/5xx `/user` response (returning a mapping
only when `/user` succeeded, with the `/user/emails` status ignored),
Google on a 4xx/5xx response, and AILab exactly when the status is not
200. -/
theorem getRawUserInfo_status_amended :
    (∀ uResp eResp : HttpResponse, 400 ≤ uResp.status →
      githubGetRawUserInfo uResp eResp = .error "HTTPError") ∧
    (∀ (uResp eResp : HttpResponse) (j : Json),
      githubGetRawUserInfo uResp eResp = .ok j → uResp.status < 400) ∧
    (githubGetRawUserInfo
      ⟨200, .obj [("id", Json.num 1), ("login", Json.str "u"),
        ("name", Json.str "U")]⟩ ⟨500, .arr []⟩ =
      .ok (.obj [("id", Json.num 1), ("login", Json.str "u"),
        ("name", Json.str "U"), ("email", Json.str "")])) ∧
    (∀ r : HttpResponse, 400 ≤ r.status →
      googleGetRawUserInfo r = .error "HTTPError") ∧
    (∀ (r : HttpResponse) (j : Json),
      googleGetRawUserInfo r = .ok j → r.status < 400) ∧
    (∀ r : HttpResponse, r.status ≠ 200 →
      ailabGetRawUserInfo r = .error "Error getting user info") ∧
    (∀ (r : HttpResponse) (j : Json),
      ailabGetRawUserInfo r = .ok j → r.status = 200) := by
  refine ⟨?_, ?_, rfl, ?_, ?_, ?_, ?_⟩
  · intro uResp eResp h
    unfold githubGetRawUserInfo
    rw [if_pos h]
  · intro uResp eResp j hj
    by_contra hge
    push_neg at hge
    unfold githubGetRawUserInfo at hj
    rw [if_pos hge] at hj
    exact Except.noConfusion hj
  · intro r h
    unfold googleGetRawUserInfo
    rw [if_pos h]
  · intro r j hj
    by_contra hge
    push_neg at hge
    unfold googleGetRawUserInfo at hj
    rw [if_pos hge] at hj
    exact Except.noConfusion hj
  · intro r h
    unfold ailabGetRawUserInfo
    rw [if_pos h]
  · intro r j hj
    by_contra hne
    unfold ailabGetRawUserInfo at hj
    rw [if_pos hne] at hj
    exact Except.noConfusion hj

/-- Witness for the amended C9 at a concrete failing status. -/
theorem getRawUserInfo_status_amended_witness :
    googleGetRawUserInfo ⟨404, Json.null⟩ = .error "HTTPError" :=
  getRawUserInfo_status_amended.2.2.2.1 ⟨404, Json.null⟩ (by decide)
